import Mathlib

/-!
Verification development for `boltons/ecoutils.py`.

The Python module builds a JSON-serializable "profile" dictionary of
runtime-environment facts and contains two shell-quoting algorithms
(`_args2sh` for POSIX shells, `_args2cmd` for Windows cmd).  Dictionaries
are embedded as insertion-ordered association lists `List (String × Val)`;
OS lookups that the source performs per call are passed in explicitly, the
fallible ones as `Except PyErr` values (an `Except.error` models the lookup
raising).  Module-level constants (computed once at import time) live in
`ModuleState`; per-call process state lives in `CallState`.
-/

/-- JSON-like values stored in the profile dictionary. -/
inductive Val where
  | str (s : String)
  | int (n : Int)
  | bool (b : Bool)
  | list (xs : List Val)
  | dict (xs : List (String × Val))

/-- Exceptions that the embedded code can raise. -/
inductive PyErr where
  | typeError
  | valueError
  | osError

/-- The single-quote character (code 39). -/
def squote : Char := Char.ofNat 39

/-- The double-quote character (code 34). -/
def dquote : Char := Char.ofNat 34

/-- The backslash character (code 92). -/
def bslash : Char := Char.ofNat 92

/-- The horizontal-tab character (code 9). -/
def tabch : Char := Char.ofNat 9

/-- Python dict assignment `d[k] = v`: overwrite in place if the key is
present (keeping its position), otherwise append at the end. -/
def dictSet (d : List (String × Val)) (k : String) (v : Val) : List (String × Val) :=
  if d.any (fun q => q.1 == k) then
    d.map (fun q => if q.1 == k then (q.1, v) else q)
  else
    d ++ [(k, v)]

/-- Assignment into a nested dict value: `valSet (dict dd) k v` is
`dict (dictSet dd k v)`; any non-dict value is left unchanged. -/
def valSet : Val → String → Val → Val
  | Val.dict dd, k, v => Val.dict (dictSet dd k v)
  | x, _, _ => x

/-- Python nested dict assignment `d[k1][k2] = v` (for the keys used here,
`k1` is always present and holds a dict). -/
def dictSetIn (d : List (String × Val)) (k1 k2 : String) (v : Val) : List (String × Val) :=
  d.map (fun q => if q.1 == k1 then (q.1, valSet q.2 k2 v) else q)

/-- Top-level key list of an embedded dict. -/
def topKeys (d : List (String × Val)) : List String := d.map Prod.fst

/-- Key list of the dict stored under `k`, if any. -/
def subKeys (d : List (String × Val)) (k : String) : Option (List String) :=
  match d.lookup k with
  | some (Val.dict dd) => some (topKeys dd)
  | _ => none

/-- Key list of the dict stored under `k2` inside the dict stored under `k1`. -/
def subKeys2 (d : List (String × Val)) (k1 k2 : String) : Option (List String) :=
  match d.lookup k1 with
  | some (Val.dict dd) => subKeys dd k2
  | _ => none

/-- The dict stored under `k` (empty if absent or not a dict). -/
def subDict (d : List (String × Val)) (k : String) : List (String × Val) :=
  match d.lookup k with
  | some (Val.dict dd) => dd
  | _ => []

/-- Remove the entries whose keys are listed in `ks`. -/
def dropKeys (d : List (String × Val)) (ks : List String) : List (String × Val) :=
  d.filter (fun q => !(ks.contains q.1))

/-- `Except` result is a success. -/
def exOk {α : Type} : Except PyErr α → Bool
  | Except.ok _ => true
  | Except.error _ => false

/-! ## Shell quoting (`_args2sh`, `_args2cmd`, `_escape_shell_args`) -/

/-- The safe-character set of the `_find_sh_unsafe` regex: a character is
safe iff it is alphanumeric (ASCII) or one of underscore, at-sign, percent,
plus, equals, colon, comma, dot, slash, hyphen. -/
def shSafe (c : Char) : Bool :=
  (decide ('a' ≤ c) && decide (c ≤ 'z')) ||
  (decide ('A' ≤ c) && decide (c ≤ 'Z')) ||
  (decide ('0' ≤ c) && decide (c ≤ '9')) ||
  "_@%+=:,./-".toList.contains c

/-- The replacement `arg.replace("'", "'\"'\"'")` maps each single quote to
this five-character sequence. -/
def shRepl : List Char := [squote, dquote, squote, dquote, squote]

/-- `arg.replace("'", "'\"'\"'")` over the characters of the argument. -/
def replQuotes : List Char → List Char
  | [] => []
  | c :: rest => (if c == squote then shRepl else [c]) ++ replQuotes rest

/-- One argument of `_args2sh`: empty arguments yield a two-quote token,
all-safe arguments pass through, anything else is single-quote wrapped with
embedded quotes replaced by `shRepl`. -/
def shToken (s : List Char) : List Char :=
  if s.isEmpty then [squote, squote]
  else if s.all shSafe then s
  else squote :: replQuotes s ++ [squote]

/-- `_args2sh`: quote each argument and join with single spaces. -/
def _args2sh (args : List (List Char)) : List Char :=
  List.intercalate [' '] (args.map shToken)

/-- Loop body of `_args2cmd`: state is `(result, bs_buf)`; backslashes are
buffered, doubled (plus an escaped quote) on a double quote, and flushed
unmodified before any other character. -/
def cmdStep (st : List Char × List Char) (c : Char) : List Char × List Char :=
  if c == bslash then (st.1, st.2 ++ [bslash])
  else if c == dquote then
    (st.1 ++ List.replicate (2 * st.2.length) bslash ++ [bslash, dquote], [])
  else (st.1 ++ st.2 ++ [c], [])

/-- Scan of one argument by the `_args2cmd` loop. -/
def cmdProcess (s : List Char) : List Char × List Char :=
  s.foldl cmdStep ([], [])

/-- `needquote` of `_args2cmd`: the argument contains a space or a tab, or
is empty. -/
def needquote (s : List Char) : Bool :=
  s.contains ' ' || s.contains tabch || s.isEmpty

/-- One argument of `_args2cmd`: optional opening quote, the scanned result,
the remaining backslash buffer (flushed once), and for quoted arguments the
buffer once more followed by the closing quote. -/
def cmdToken (s : List Char) : List Char :=
  let r := cmdProcess s
  (if needquote s then [dquote] else []) ++ r.1 ++ r.2 ++
    (if needquote s then r.2 ++ [dquote] else [])

/-- `_args2cmd`: tokens joined by single spaces (the source appends a space
before every argument except the first; tokens are never empty). -/
def _args2cmd (args : List (List Char)) : List Char :=
  List.intercalate [' '] (args.map cmdToken)

/-- `_escape_shell_args(args, style=style)` on platform `platform`:
a falsy style (absent or empty) selects the platform default, `sh` and
`cmd` dispatch, anything else raises `ValueError`. -/
def _escape_shell_args (args : List (List Char)) (platform : String)
    (style : Option String) : Except PyErr (List Char) :=
  let sty : String :=
    match style with
    | none => if platform = "win32" then "cmd" else "sh"
    | some s => if s = "" then (if platform = "win32" then "cmd" else "sh") else s
  if sty = "sh" then Except.ok (_args2sh args)
  else if sty = "cmd" then Except.ok (_args2cmd args)
  else Except.error PyErr.valueError

/-! ## umask read (`oct(os.umask(os.umask(2))).rjust(3, '0')`) -/

/-- `os.umask(newMask)` on a process whose umask is `state`: sets the umask
to `newMask` and returns the previous value. -/
def osUmask (state newMask : Nat) : Nat × Nat := (state, newMask)

/-- Python 3 `oct`. -/
def pyOct (n : Nat) : String := "0o" ++ String.mk (Nat.toDigits 8 n)

/-- Python `str.rjust`. -/
def pyRjust (s : String) (w : Nat) (fill : Char) : String :=
  if w ≤ s.length then s else String.mk (List.replicate (w - s.length) fill) ++ s

/-- `oct(os.umask(os.umask(2))).rjust(3, '0')` starting from process umask
`u`: returns the stored string together with the final process umask. -/
def umaskRead (u : Nat) : String × Nat :=
  let p1 := osUmask u 2
  let p2 := osUmask p1.2 p1.1
  (pyRjust (pyOct p2.1) 3 '0', p2.2)

/-! ## Spec-modelled shell tokenizers

Modelled from the spec: the POSIX tokenizer of section 4.3/8 ("a
POSIX-compliant shell tokenizer ... recovers exactly the original argument
list") and the Windows command-line parser convention of section 4.3
(runs of n backslashes before a quote yield n/2 backslashes, an odd run
escapes the quote, other backslashes are literal, an unescaped quote
toggles quoting).  Neither parser is code of this repository. -/

/-- Tokenizer mode: unquoted, inside single quotes, inside double quotes,
or immediately after an unquoted backslash. -/
inductive ShMode where
  | norm
  | inS
  | inD
  | esc

/-- Modelled from the spec: POSIX shell tokenization.  Whitespace splits
words outside quotes; single quotes preserve everything up to the next
single quote; double quotes preserve everything up to the next double
quote; an unquoted backslash preserves the next character.  `started`
records whether the current word has begun (so `''` yields an empty word). -/
def shParseGo : List Char → ShMode → Bool → List Char → List (List Char) → List (List Char)
  | [], _, started, cur, acc => acc ++ (if started then [cur] else [])
  | c :: rest, ShMode.norm, started, cur, acc =>
    if c == ' ' || c == tabch then
      shParseGo rest ShMode.norm false [] (acc ++ (if started then [cur] else []))
    else if c == squote then shParseGo rest ShMode.inS true cur acc
    else if c == dquote then shParseGo rest ShMode.inD true cur acc
    else if c == bslash then shParseGo rest ShMode.esc started cur acc
    else shParseGo rest ShMode.norm true (cur ++ [c]) acc
  | c :: rest, ShMode.inS, _, cur, acc =>
    if c == squote then shParseGo rest ShMode.norm true cur acc
    else shParseGo rest ShMode.inS true (cur ++ [c]) acc
  | c :: rest, ShMode.inD, _, cur, acc =>
    if c == dquote then shParseGo rest ShMode.norm true cur acc
    else shParseGo rest ShMode.inD true (cur ++ [c]) acc
  | c :: rest, ShMode.esc, _, cur, acc =>
    shParseGo rest ShMode.norm true (cur ++ [c]) acc

/-- Modelled from the spec: POSIX shell tokenization of a whole string. -/
def shParse (s : List Char) : List (List Char) :=
  shParseGo s ShMode.norm false [] []

/-- Modelled from the spec: Windows command-line parsing under the
section 4.3 backslash/quote convention.  State: in-quotes flag, whether the
current word has begun, pending backslash count, current word, finished
words. -/
def cmdParseGo : List Char → Bool → Bool → Nat → List Char → List (List Char) → List (List Char)
  | [], _, started, nbs, cur, acc =>
    acc ++ (if started then [cur ++ List.replicate nbs bslash] else [])
  | c :: rest, inQ, started, nbs, cur, acc =>
    if c == bslash then cmdParseGo rest inQ true (nbs + 1) cur acc
    else if c == dquote then
      let cur2 := cur ++ List.replicate (nbs / 2) bslash
      if nbs % 2 == 1 then cmdParseGo rest inQ true 0 (cur2 ++ [dquote]) acc
      else cmdParseGo rest (!inQ) true 0 cur2 acc
    else if (c == ' ' || c == tabch) && !inQ then
      cmdParseGo rest false false 0 []
        (acc ++ (if started then [cur ++ List.replicate nbs bslash] else []))
    else cmdParseGo rest inQ true 0 (cur ++ List.replicate nbs bslash ++ [c]) acc

/-- Modelled from the spec: Windows command-line parsing of a whole string. -/
def cmdParse (s : List Char) : List (List Char) :=
  cmdParseGo s false false 0 [] []

/-! ## Concrete claim instances for quoting and umask -/

/-- The spec's POSIX round-trip argument list. -/
def shArgs : List (List Char) :=
  [['a', ' ', 'b'], ['i', 't', squote, 's'], [], ['p', 'l', 'a', 'i', 'n']]

/-- The spec's Windows round-trip argument list. -/
def cmdArgs : List (List Char) :=
  [['a', ' ', 'b'], ['c', dquote, 'd'], [bslash],
   ['e', bslash, bslash, dquote, 'f']]

/-! ## Profile builder (`get_profile`, `get_python_info`) -/

/-- Module-level state: constants computed once at import time (the
instance GUID, the feature-probe results, CPU count, rlimits, start time)
plus `sys.platform`. -/
structure ModuleState where
  instance_id : String
  opensslVersion : String
  expatVersion : String
  sqliteVersion : String
  tkinterVersion : String
  zlibVersion : String
  haveUcs4 : Bool
  haveReadline : Bool
  is64bit : Bool
  haveIpv6 : Bool
  haveThreading : Bool
  cpuCount : Int
  rlimitSoft : Int
  rlimitHard : Int
  timeUtc : String
  timeUtcOffset : Val
  platform : String

/-- Per-call process state: each OS lookup that `get_profile` performs.  A
lookup the source wraps in try/except, or that can raise, is an `Except`
(`Except.error` models the lookup raising); plain attribute reads are bare
values. -/
structure CallState where
  username : Except PyErr String
  hostname : Except PyErr String
  hostfqdn : Except PyErr String
  uname : Except PyErr (String × String × String × String × String × String)
  linuxDist : Except PyErr (String × String × String)
  fsEncoding : Except PyErr String
  cwd : Except PyErr String
  umaskState : Nat
  argv : List (List Char)
  executable : String
  version : String
  compiler : String
  buildDate : String
  versionInfo : List Val

/-- `ECO_VERSION`. -/
def ECO_VERSION : String := "1.0.0"

/-- `' '.join(sys.version.split())`: collapse whitespace runs. -/
def normVersion (s : String) : String :=
  String.intercalate " " ((s.split Char.isWhitespace).filter (fun w => w ≠ ""))

/-- `_escape_shell_args(sys.argv)` with the platform-default style (the
default style is always `sh` or `cmd`, so the call cannot raise). -/
def escapeArgvDefault (args : List (List Char)) (platform : String) : List Char :=
  match _escape_shell_args args platform none with
  | Except.ok r => r
  | Except.error _ => []

/-- The `features` dict of `get_python_info()`: built entirely from
module-level probe constants. -/
def featuresDict (M : ModuleState) : List (String × Val) :=
  [("openssl", Val.str M.opensslVersion),
   ("expat", Val.str M.expatVersion),
   ("sqlite", Val.str M.sqliteVersion),
   ("tkinter", Val.str M.tkinterVersion),
   ("zlib", Val.str M.zlibVersion),
   ("unicode_wide", Val.bool M.haveUcs4),
   ("readline", Val.bool M.haveReadline),
   ("64bit", Val.bool M.is64bit),
   ("ipv6", Val.bool M.haveIpv6),
   ("threading", Val.bool M.haveThreading)]

/-- `get_python_info()`: the `python` sub-dict. -/
def get_python_info (M : ModuleState) (c : CallState) : List (String × Val) :=
  [("argv", Val.str (String.mk (escapeArgvDefault c.argv M.platform))),
   ("bin", Val.str c.executable),
   ("version", Val.str (normVersion c.version)),
   ("compiler", Val.str c.compiler),
   ("build_date", Val.str c.buildDate),
   ("version_info", Val.list c.versionInfo),
   ("features", Val.dict (featuresDict M))]

/-- The scrub block of `get_profile`: seven in-place dict assignments. -/
def applyScrub (d : List (String × Val)) : List (String × Val) :=
  let d1 := dictSet d "cwd" (Val.str "-")
  let d2 := dictSet d1 "hostname" (Val.str "-")
  let d3 := dictSet d2 "hostfqdn" (Val.str "-")
  let d4 := dictSetIn d3 "python" "bin" (Val.str "-")
  let d5 := dictSetIn d4 "python" "argv" (Val.str "-")
  let d6 := dictSetIn d5 "uname" "node" (Val.str "-")
  dictSet d6 "username" (Val.str "-")

/-- The `uname` sub-dict: the six positional fields mapped to named keys. -/
def unameDict (un : String × String × String × String × String × String) :
    List (String × Val) :=
  [("system", Val.str un.1),
   ("node", Val.str un.2.1),
   ("release", Val.str un.2.2.1),
   ("version", Val.str un.2.2.2.1),
   ("machine", Val.str un.2.2.2.2.1),
   ("processor", Val.str un.2.2.2.2.2)]

/-- The dict built by `get_profile` (before the scrub block) once the
fallible lookups have succeeded (`hostname`, `hostfqdn`, `uname`,
`fs_encoding`, `cwd`); the wrapped `username` and `linux_distribution`
lookups degrade to their defaults inside. -/
def build_base (M : ModuleState) (c : CallState) (hostname hostfqdn : String)
    (un : String × String × String × String × String × String)
    (fsEnc cwd : String) : List (String × Val) :=
  let username := match c.username with
    | Except.ok u => u
    | Except.error _ => ""
  let linuxDist := match c.linuxDist with
    | Except.ok t => t
    | Except.error _ => ("", "", "")
  [("username", Val.str username),
   ("guid", Val.str M.instance_id),
   ("hostname", Val.str hostname),
   ("hostfqdn", Val.str hostfqdn),
   ("uname", Val.dict (unameDict un)),
   ("linux_dist_name", Val.str linuxDist.1),
   ("linux_dist_version", Val.str linuxDist.2.1),
   ("cpu_count", Val.int M.cpuCount),
   ("fs_encoding", Val.str fsEnc),
   ("ulimit_soft", Val.int M.rlimitSoft),
   ("ulimit_hard", Val.int M.rlimitHard),
   ("cwd", Val.str cwd),
   ("umask", Val.str (umaskRead c.umaskState).1),
   ("python", Val.dict (get_python_info M c)),
   ("time_utc", Val.str M.timeUtc),
   ("time_utc_offset", M.timeUtcOffset),
   ("_eco_version", Val.str ECO_VERSION)]

/-- The dict built by `get_profile`: the base dict, with the scrub block
applied at the end when `scrub` is set, exactly as in the source. -/
def build_profile (M : ModuleState) (c : CallState) (hostname hostfqdn : String)
    (un : String × String × String × String × String × String)
    (fsEnc cwd : String) (scrub : Bool) : List (String × Val) :=
  if scrub then applyScrub (build_base M c hostname hostfqdn un fsEnc cwd)
  else build_base M c hostname hostfqdn un fsEnc cwd

/-- The `uname` sub-dict after the scrub block: only `node` is masked. -/
def scrubbedUname (un : String × String × String × String × String × String) :
    List (String × Val) :=
  [("system", Val.str un.1),
   ("node", Val.str "-"),
   ("release", Val.str un.2.2.1),
   ("version", Val.str un.2.2.2.1),
   ("machine", Val.str un.2.2.2.2.1),
   ("processor", Val.str un.2.2.2.2.2)]

/-- The `python` sub-dict after the scrub block: only `argv` and `bin` are
masked. -/
def scrubbedPython (M : ModuleState) (c : CallState) : List (String × Val) :=
  [("argv", Val.str "-"),
   ("bin", Val.str "-"),
   ("version", Val.str (normVersion c.version)),
   ("compiler", Val.str c.compiler),
   ("build_date", Val.str c.buildDate),
   ("version_info", Val.list c.versionInfo),
   ("features", Val.dict (featuresDict M))]

/-- The profile dict after the scrub block: the seven masked fields hold
`"-"`, every other entry is the `build_base` entry in its original
position. -/
def build_scrubbed (M : ModuleState) (c : CallState) (_hostname _hostfqdn : String)
    (un : String × String × String × String × String × String)
    (fsEnc _cwd : String) : List (String × Val) :=
  let linuxDist := match c.linuxDist with
    | Except.ok t => t
    | Except.error _ => ("", "", "")
  [("username", Val.str "-"),
   ("guid", Val.str M.instance_id),
   ("hostname", Val.str "-"),
   ("hostfqdn", Val.str "-"),
   ("uname", Val.dict (scrubbedUname un)),
   ("linux_dist_name", Val.str linuxDist.1),
   ("linux_dist_version", Val.str linuxDist.2.1),
   ("cpu_count", Val.int M.cpuCount),
   ("fs_encoding", Val.str fsEnc),
   ("ulimit_soft", Val.int M.rlimitSoft),
   ("ulimit_hard", Val.int M.rlimitHard),
   ("cwd", Val.str "-"),
   ("umask", Val.str (umaskRead c.umaskState).1),
   ("python", Val.dict (scrubbedPython M c)),
   ("time_utc", Val.str M.timeUtc),
   ("time_utc_offset", M.timeUtcOffset),
   ("_eco_version", Val.str ECO_VERSION)]

/-- The effective `scrub` argument: `kwargs.pop('scrub', False)`. -/
def scrubArg (kwargs : List (String × Bool)) : Bool :=
  match kwargs.lookup "scrub" with
  | some b => b
  | none => false

/-- The body of `get_profile` after the keyword check: the fallible
lookups in source order, each unwrapped `Except.error` propagating. -/
def get_profile_body (M : ModuleState) (c : CallState) (scrub : Bool) :
    Except PyErr (List (String × Val)) :=
  match c.hostname with
  | Except.error e => Except.error e
  | Except.ok hostname =>
    match c.hostfqdn with
    | Except.error e => Except.error e
    | Except.ok hostfqdn =>
      match c.uname with
      | Except.error e => Except.error e
      | Except.ok un =>
        match c.fsEncoding with
        | Except.error e => Except.error e
        | Except.ok fsEnc =>
          match c.cwd with
          | Except.error e => Except.error e
          | Except.ok cwd =>
            Except.ok (build_profile M c hostname hostfqdn un fsEnc cwd scrub)

/-- `get_profile(**kwargs)`: pop `scrub`, reject any remaining keyword
with `TypeError`, then build the profile. -/
def get_profile (M : ModuleState) (c : CallState) (kwargs : List (String × Bool)) :
    Except PyErr (List (String × Val)) :=
  if (kwargs.filter (fun q => !(q.1 == "scrub"))).isEmpty then
    get_profile_body M c (scrubArg kwargs)
  else
    Except.error PyErr.typeError

/-! ## Fixed key sets -/

/-- The seventeen top-level profile keys, in insertion order. -/
def profileKeys : List String :=
  ["username", "guid", "hostname", "hostfqdn", "uname",
   "linux_dist_name", "linux_dist_version", "cpu_count", "fs_encoding",
   "ulimit_soft", "ulimit_hard", "cwd", "umask", "python",
   "time_utc", "time_utc_offset", "_eco_version"]

/-- The six `uname` sub-keys. -/
def unameKeys : List String :=
  ["system", "node", "release", "version", "machine", "processor"]

/-- The seven `python` sub-keys. -/
def pythonKeys : List String :=
  ["argv", "bin", "version", "compiler", "build_date", "version_info", "features"]

/-- The ten `python.features` probe keys. -/
def featureKeys : List String :=
  ["openssl", "expat", "sqlite", "tkinter", "zlib",
   "unicode_wide", "readline", "64bit", "ipv6", "threading"]

/-- A profile has the fixed schema: the exact top-level key list, the
exact `uname` and `python` sub-key lists, and the exact `features` key
list inside `python`. -/
def SchemaOk (p : List (String × Val)) : Prop :=
  topKeys p = profileKeys ∧
  subKeys p "uname" = some unameKeys ∧
  subKeys p "python" = some pythonKeys ∧
  subKeys2 p "python" "features" = some featureKeys

/-! ## Sample process states -/

/-- A sample module state. -/
def M0 : ModuleState :=
  ⟨"6b139e7bbf5ad4ed8d4063bf6235b4d2", "OpenSSL 1.0.1f", "expat_2.1.0", "3.8.2",
   "8.6", "1.2.8", true, true, true, true, true, 4, 1024, 4096,
   "2016-05-24 07:59:40.473140", Val.int (-8), "linux"⟩

/-- A sample call state in which every lookup succeeds. -/
def c0 : CallState :=
  ⟨Except.ok "mahmoud", Except.ok "mahmoud-host", Except.ok "mahmoud-host",
   Except.ok ("Linux", "mahmoud-host", "3.13.0-85-generic", "#129-Ubuntu SMP",
              "x86_64", "x86_64"),
   Except.ok ("Ubuntu", "14.04", "trusty"),
   Except.ok "UTF-8", Except.ok "/home/mahmoud/projects/boltons", 18,
   [['p', 'y']], "/usr/bin/python", "2.7.6 (default)", "GCC 4.8.2",
   "Jun 22 2015", [Val.int 2, Val.int 7, Val.int 6, Val.str "final", Val.int 0]⟩

/-- Like `c0`, but the working-directory lookup raises. -/
def cBad : CallState :=
  ⟨Except.ok "mahmoud", Except.ok "mahmoud-host", Except.ok "mahmoud-host",
   Except.ok ("Linux", "mahmoud-host", "3.13.0-85-generic", "#129-Ubuntu SMP",
              "x86_64", "x86_64"),
   Except.ok ("Ubuntu", "14.04", "trusty"),
   Except.ok "UTF-8", Except.error PyErr.osError, 18,
   [['p', 'y']], "/usr/bin/python", "2.7.6 (default)", "GCC 4.8.2",
   "Jun 22 2015", [Val.int 2, Val.int 7, Val.int 6, Val.str "final", Val.int 0]⟩

/-- Like `c0`, but the wrapped user-name and Linux-distribution lookups
raise (they are the ones the source failure-isolates). -/
def cIso : CallState :=
  ⟨Except.error PyErr.osError, Except.ok "mahmoud-host", Except.ok "mahmoud-host",
   Except.ok ("Linux", "mahmoud-host", "3.13.0-85-generic", "#129-Ubuntu SMP",
              "x86_64", "x86_64"),
   Except.error PyErr.osError,
   Except.ok "UTF-8", Except.ok "/home/mahmoud/projects/boltons", 18,
   [['p', 'y']], "/usr/bin/python", "2.7.6 (default)", "GCC 4.8.2",
   "Jun 22 2015", [Val.int 2, Val.int 7, Val.int 6, Val.str "final", Val.int 0]⟩

/-- The profile built by the sample success call (with no keyword
arguments). -/
def p0 : List (String × Val) := (get_profile M0 c0 []).toOption.getD []

/-! ## Scrub masking -/

/-- Relation between an unscrubbed profile `p` and a scrubbed profile `q`:
the seven masked fields hold `"-"` in `q`, and removing exactly the
touched entries (the four masked top-level string fields, plus the
`python` and `uname` sub-dicts compared separately without their masked
sub-keys) leaves `p` and `q` identical. -/
def ScrubRel (p q : List (String × Val)) : Prop :=
  q.lookup "cwd" = some (Val.str "-") ∧
  q.lookup "hostname" = some (Val.str "-") ∧
  q.lookup "hostfqdn" = some (Val.str "-") ∧
  q.lookup "username" = some (Val.str "-") ∧
  (subDict q "python").lookup "bin" = some (Val.str "-") ∧
  (subDict q "python").lookup "argv" = some (Val.str "-") ∧
  (subDict q "uname").lookup "node" = some (Val.str "-") ∧
  dropKeys q ["cwd", "hostname", "hostfqdn", "username", "python", "uname"] =
    dropKeys p ["cwd", "hostname", "hostfqdn", "username", "python", "uname"] ∧
  dropKeys (subDict q "python") ["bin", "argv"] =
    dropKeys (subDict p "python") ["bin", "argv"] ∧
  dropKeys (subDict q "uname") ["node"] = dropKeys (subDict p "uname") ["node"]

/-- The profile of the sample `scrub=false` call. -/
def pNoScrub : List (String × Val) :=
  (get_profile M0 c0 [("scrub", false)]).toOption.getD []

/-- The profile of the sample `scrub=true` call. -/
def qScrub : List (String × Val) :=
  (get_profile M0 c0 [("scrub", true)]).toOption.getD []

/-- The profile of a second sample call: different call state (failing
wrapped lookups) and `scrub=true`. -/
def pOther : List (String × Val) :=
  (get_profile M0 cIso [("scrub", true)]).toOption.getD []

/-! ## Trailing backslashes in the Windows quoter -/

/-- Length of the trailing backslash run of an argument. -/
def trailingBS (s : List Char) : Nat :=
  (s.reverse.takeWhile (fun c => c == bslash)).length

/-- The argument `it's`. -/
def sampleIts : List Char := ['i', 't', squote, 's']

/-- C4: for `["a b", "it's", "", "plain"]` the POSIX quoter produces the
tokens `'a b'`, `'it'"'"'s'`, `''`, `plain` joined by single spaces, and a
POSIX tokenizer recovers exactly the original four arguments in order. -/
theorem sh_quote_roundtrip :
    _args2sh shArgs =
      [squote, 'a', ' ', 'b', squote, ' ',
       squote, 'i', 't', squote, dquote, squote, dquote, squote, 's', squote, ' ',
       squote, squote, ' ',
       'p', 'l', 'a', 'i', 'n'] ∧
    shParse (_args2sh shArgs) = shArgs := by
  constructor
  · rfl
  · rfl

/-- C5: for `["a b", "c\"d", "\", "e\\\"f"]` the Windows quoter produces a
string that the section 4.3 backslash/quote parser tokenizes back to
exactly the original four arguments in order. -/
theorem cmd_quote_roundtrip :
    _args2cmd cmdArgs =
      [dquote, 'a', ' ', 'b', dquote, ' ',
       'c', bslash, dquote, 'd', ' ',
       bslash, ' ',
       'e', bslash, bslash, bslash, bslash, bslash, dquote, 'f'] ∧
    cmdParse (_args2cmd cmdArgs) = cmdArgs := by
  constructor
  · rfl
  · rfl

/-- C3: the umask read does restore the process umask, but the stored
string is `oct` of the outer `os.umask` call's return value, which is
always the temporary mask `2`; at process umask 0o22 (18) the code stores
"0o2" instead of the claimed "022". -/
theorem umask_round_trip_bug :
    (∀ u : Nat, (umaskRead u).2 = u ∧ (umaskRead u).1 = "0o2") ∧
    (umaskRead 18).1 ≠ "022" := by
  have hfst : ∀ u : Nat, (umaskRead u).1 = pyRjust (pyOct 2) 3 '0' := by
    intro u
    simp [umaskRead, osUmask]
  have hval : pyRjust (pyOct 2) 3 '0' = "0o2" := by decide
  constructor
  · intro u
    refine ⟨?_, (hfst u).trans hval⟩
    simp [umaskRead, osUmask]
  · rw [hfst 18, hval]
    decide

set_option maxHeartbeats 2000000 in
/-- The scrub block maps the base profile to the explicit scrubbed
profile: every masked key exists, so each of the seven assignments is an
in-place overwrite. -/
theorem applyScrub_build_base (M : ModuleState) (c : CallState)
    (hostname hostfqdn : String)
    (un : String × String × String × String × String × String)
    (fsEnc cwd : String) :
    applyScrub (build_base M c hostname hostfqdn un fsEnc cwd) =
      build_scrubbed M c hostname hostfqdn un fsEnc cwd := by
  rfl

/-- `build_profile` with `scrub = false` is the base profile. -/
theorem build_profile_false (M : ModuleState) (c : CallState)
    (hostname hostfqdn : String)
    (un : String × String × String × String × String × String)
    (fsEnc cwd : String) :
    build_profile M c hostname hostfqdn un fsEnc cwd false =
      build_base M c hostname hostfqdn un fsEnc cwd := rfl

/-- `build_profile` with `scrub = true` is the scrubbed profile. -/
theorem build_profile_true (M : ModuleState) (c : CallState)
    (hostname hostfqdn : String)
    (un : String × String × String × String × String × String)
    (fsEnc cwd : String) :
    build_profile M c hostname hostfqdn un fsEnc cwd true =
      build_scrubbed M c hostname hostfqdn un fsEnc cwd := by
  have h : build_profile M c hostname hostfqdn un fsEnc cwd true =
      applyScrub (build_base M c hostname hostfqdn un fsEnc cwd) := rfl
  rw [h, applyScrub_build_base]

/-! ## Inversion of a successful `get_profile` call -/

/-- A successful `get_profile` call determines success of the five
unwrapped lookups, and the result is `build_profile` at their values. -/
theorem get_profile_ok_elim (M : ModuleState) (c : CallState)
    (kwargs : List (String × Bool)) (p : List (String × Val))
    (h : get_profile M c kwargs = Except.ok p) :
    ∃ hn hf un fe cw,
      c.hostname = Except.ok hn ∧ c.hostfqdn = Except.ok hf ∧
      c.uname = Except.ok un ∧ c.fsEncoding = Except.ok fe ∧
      c.cwd = Except.ok cw ∧
      p = build_profile M c hn hf un fe cw (scrubArg kwargs) := by
  unfold get_profile at h
  split at h
  · unfold get_profile_body at h
    cases h1 : c.hostname with
    | error e => rw [h1] at h; exact Except.noConfusion h
    | ok hn =>
      rw [h1] at h
      cases h2 : c.hostfqdn with
      | error e => rw [h2] at h; exact Except.noConfusion h
      | ok hf =>
        rw [h2] at h
        cases h3 : c.uname with
        | error e => rw [h3] at h; exact Except.noConfusion h
        | ok un =>
          rw [h3] at h
          cases h4 : c.fsEncoding with
          | error e => rw [h4] at h; exact Except.noConfusion h
          | ok fe =>
            rw [h4] at h
            cases h5 : c.cwd with
            | error e => rw [h5] at h; exact Except.noConfusion h
            | ok cw =>
              rw [h5] at h
              refine ⟨hn, hf, un, fe, cw, rfl, rfl, rfl, rfl, rfl, ?_⟩
              injection h with h
              exact h.symm
  · exact Except.noConfusion h

set_option maxHeartbeats 3000000 in
/-- C1: every dictionary returned by `get_profile` (for any module state,
any call state, and any keyword arguments, hence any `scrub` value and any
probe failure) has exactly the seventeen fixed top-level keys, the six
`uname` sub-keys, the seven `python` sub-keys, and the ten `features`
probe keys; no key is ever absent. -/
theorem get_profile_schema (M : ModuleState) (c : CallState)
    (kwargs : List (String × Bool)) (p : List (String × Val))
    (h : get_profile M c kwargs = Except.ok p) : SchemaOk p := by
  obtain ⟨hn, hf, un, fe, cw, _, _, _, _, _, hp⟩ := get_profile_ok_elim M c kwargs p h
  subst hp
  cases hs : scrubArg kwargs
  · rw [build_profile_false]
    exact ⟨rfl, rfl, rfl, rfl⟩
  · rw [build_profile_true]
    exact ⟨rfl, rfl, rfl, rfl⟩

/-- C1 witness: the sample call succeeds and its profile has the fixed
schema. -/
theorem get_profile_schema_witness :
    get_profile M0 c0 [] = Except.ok p0 ∧ SchemaOk p0 :=
  ⟨rfl, get_profile_schema M0 c0 [] p0 rfl⟩

set_option maxHeartbeats 3000000 in
/-- C2: calling `get_profile` with `scrub=true` yields `"-"` for exactly
`cwd`, `hostname`, `hostfqdn`, `python.bin`, `python.argv`, `uname.node`
and `username` (keys preserved), and every other field equals the value of
the `scrub=false` call on the same process state. -/
theorem get_profile_scrub_mask (M : ModuleState) (c : CallState)
    (p q : List (String × Val))
    (hp : get_profile M c [("scrub", false)] = Except.ok p)
    (hq : get_profile M c [("scrub", true)] = Except.ok q) : ScrubRel p q := by
  obtain ⟨hn, hf, un, fe, cw, h1, h2, h3, h4, h5, hpe⟩ :=
    get_profile_ok_elim M c [("scrub", false)] p hp
  obtain ⟨hn2, hf2, un2, fe2, cw2, g1, g2, g3, g4, g5, hqe⟩ :=
    get_profile_ok_elim M c [("scrub", true)] q hq
  rw [h1] at g1
  injection g1 with e1
  rw [h2] at g2
  injection g2 with e2
  rw [h3] at g3
  injection g3 with e3
  rw [h4] at g4
  injection g4 with e4
  rw [h5] at g5
  injection g5 with e5
  subst e1 e2 e3 e4 e5 hpe hqe
  rw [show scrubArg [("scrub", false)] = false from rfl,
      show scrubArg [("scrub", true)] = true from rfl,
      build_profile_false, build_profile_true]
  exact ⟨rfl, rfl, rfl, rfl, rfl, rfl, rfl, rfl, rfl, rfl⟩

/-- C2 witness: the sample scrubbed and unscrubbed calls succeed and stand
in the scrub relation. -/
theorem get_profile_scrub_mask_witness :
    get_profile M0 c0 [("scrub", false)] = Except.ok pNoScrub ∧
    get_profile M0 c0 [("scrub", true)] = Except.ok qScrub ∧
    ScrubRel pNoScrub qScrub :=
  ⟨rfl, rfl, get_profile_scrub_mask M0 c0 pNoScrub qScrub rfl rfl⟩

/-! ## Identity stability across calls -/

set_option maxHeartbeats 3000000 in
/-- C8: any two `get_profile` calls in the same process (same module
state, arbitrary call states and keyword arguments) return identical
`guid` fields and identical `python.features` dicts: both are built only
from module-level constants computed once per process. -/
theorem guid_features_stable (M : ModuleState) (c1 c2 : CallState)
    (k1 k2 : List (String × Bool)) (p1 p2 : List (String × Val))
    (h1 : get_profile M c1 k1 = Except.ok p1)
    (h2 : get_profile M c2 k2 = Except.ok p2) :
    p1.lookup "guid" = p2.lookup "guid" ∧
    (subDict p1 "python").lookup "features" =
      (subDict p2 "python").lookup "features" := by
  obtain ⟨hn, hf, un, fe, cw, _, _, _, _, _, hpe⟩ := get_profile_ok_elim M c1 k1 p1 h1
  obtain ⟨hn2, hf2, un2, fe2, cw2, _, _, _, _, _, hqe⟩ := get_profile_ok_elim M c2 k2 p2 h2
  subst hpe hqe
  cases hs1 : scrubArg k1 <;> cases hs2 : scrubArg k2 <;>
    simp only [build_profile_false, build_profile_true] <;> exact ⟨rfl, rfl⟩

/-- C8 witness: two concrete calls with different call states and scrub
settings agree on `guid` and on the whole `features` dict. -/
theorem guid_features_stable_witness :
    get_profile M0 c0 [] = Except.ok p0 ∧
    get_profile M0 cIso [("scrub", true)] = Except.ok pOther ∧
    (p0.lookup "guid" = pOther.lookup "guid" ∧
     (subDict p0 "python").lookup "features" =
       (subDict pOther "python").lookup "features") :=
  ⟨rfl, rfl, guid_features_stable M0 c0 cIso [] [("scrub", true)] p0 pOther rfl rfl⟩

/-- One more scanned character is one `cmdStep`. -/
theorem cmdProcess_append (s : List Char) (a : Char) :
    cmdProcess (s ++ [a]) = cmdStep (cmdProcess s) a := by
  simp [cmdProcess, List.foldl_append]

/-- After scanning an argument, the backslash buffer is exactly the
trailing backslash run, and the flushed result never ends in a
backslash. -/
theorem cmdProcess_spec (s : List Char) :
    (cmdProcess s).2 = List.replicate (trailingBS s) bslash ∧
    (cmdProcess s).1.getLast? ≠ some bslash := by
  induction s using List.reverseRecOn with
  | nil => exact ⟨rfl, by simp [cmdProcess]⟩
  | append_singleton l a ih =>
    obtain ⟨ih1, ih2⟩ := ih
    rw [cmdProcess_append]
    by_cases hb : a = bslash
    · subst hb
      have hs2 : (cmdStep (cmdProcess l) bslash).2 = (cmdProcess l).2 ++ [bslash] := by
        simp [cmdStep]
      have hs1 : (cmdStep (cmdProcess l) bslash).1 = (cmdProcess l).1 := by
        simp [cmdStep]
      have ht : trailingBS (l ++ [bslash]) = trailingBS l + 1 := by
        simp [trailingBS]
      rw [hs1, hs2, ih1, ht, List.replicate_succ']
      exact ⟨rfl, ih2⟩
    · have hab : (a == bslash) = false := by simp [hb]
      have ht : trailingBS (l ++ [a]) = 0 := by
        simp [trailingBS, hab]
      by_cases hq : a = dquote
      · subst hq
        have hs2 : (cmdStep (cmdProcess l) dquote).2 = [] := by
          simp [cmdStep, hab]
        have hs1 : (cmdStep (cmdProcess l) dquote).1 =
            ((cmdProcess l).1 ++ List.replicate (2 * (cmdProcess l).2.length) bslash
              ++ [bslash]) ++ [dquote] := by
          simp [cmdStep, hab, List.append_assoc]
        refine ⟨by rw [hs2, ht]; rfl, ?_⟩
        rw [hs1, List.getLast?_concat]
        intro hcon
        have : dquote = bslash := by injection hcon
        exact absurd this (by decide)
      · have hs2 : (cmdStep (cmdProcess l) a).2 = [] := by
          simp [cmdStep, hab, hq]
        have hs1 : (cmdStep (cmdProcess l) a).1 =
            ((cmdProcess l).1 ++ (cmdProcess l).2) ++ [a] := by
          simp [cmdStep, hab, hq, List.append_assoc]
        refine ⟨by rw [hs2, ht]; rfl, ?_⟩
        rw [hs1, List.getLast?_concat]
        intro hcon
        have : a = bslash := by injection hcon
        exact absurd this hb

/-- C6: an `_args2cmd` token for a quote-wrapped argument (empty or
containing a space or tab) carries exactly `2 * k` backslashes between the
last non-backslash content and the closing quote, where `k` is the length
of the argument's trailing backslash run; for a non-wrapped argument the
trailing run is emitted exactly once (`k` backslashes, not doubled). -/
theorem cmd_trailing_backslash (s : List Char) :
    (cmdProcess s).1.getLast? ≠ some bslash ∧
    cmdToken s =
      (if needquote s then
        dquote :: ((cmdProcess s).1 ++ List.replicate (2 * trailingBS s) bslash
          ++ [dquote])
      else (cmdProcess s).1 ++ List.replicate (trailingBS s) bslash) := by
  obtain ⟨h1, h2⟩ := cmdProcess_spec s
  refine ⟨h2, ?_⟩
  simp only [cmdToken]
  rw [h1]
  cases hq : needquote s
  · rw [if_neg Bool.false_ne_true, if_neg Bool.false_ne_true,
        List.nil_append, List.append_nil, if_neg Bool.false_ne_true]
  · rw [if_pos rfl, if_pos rfl, Nat.two_mul, List.replicate_add]
    simp only [List.append_assoc, List.singleton_append, List.cons_append,
      List.nil_append]
    rw [if_pos trivial]

/-! ## POSIX quoting of unsafe arguments -/

/-- C7 counterexample: for the single-character argument consisting of one
single quote, the produced token is the quote-wrapped five-character
replacement (seven characters in total), not the six characters that a
four-character replacement sequence would give. -/
theorem sh_quote_four_char_cex :
    shToken [squote] = [squote, squote, dquote, squote, dquote, squote, squote] ∧
    (shToken [squote]).length ≠ 1 + 4 + 1 := by
  constructor
  · rfl
  · decide

/-- C7 (amended): every argument containing at least one character outside
the safe set is wrapped in single quotes with each embedded single quote
replaced by the five-character sequence close-quote, double-quote,
single-quote, double-quote, open-quote. -/
theorem sh_quote_unsafe_wrap (s : List Char) (h : s.all shSafe = false) :
    shToken s = squote :: replQuotes s ++ [squote] ∧
    shRepl = [squote, dquote, squote, dquote, squote] ∧ shRepl.length = 5 := by
  have hne : s.isEmpty = false := by
    cases s with
    | nil => simp at h
    | cons c t => rfl
  refine ⟨?_, rfl, rfl⟩
  simp [shToken, hne, h]

/-- C7 witness: `it's` contains an unsafe character, and its token is the
single-quote wrap with the five-character replacement. -/
theorem sh_quote_unsafe_wrap_witness :
    sampleIts.all shSafe = false ∧
    (shToken sampleIts = squote :: replQuotes sampleIts ++ [squote] ∧
     shRepl = [squote, dquote, squote, dquote, squote] ∧ shRepl.length = 5) :=
  ⟨by decide, sh_quote_unsafe_wrap sampleIts (by decide)⟩

/-! ## Error propagation of the profile builder -/

/-- C9 counterexample: with a clean keyword list (no unrecognized keyword),
a failing working-directory lookup propagates out of `get_profile`: the
`os.getcwd()` call is not wrapped in any try/except. -/
theorem get_profile_cwd_error_propagates :
    get_profile M0 cBad [] = Except.error PyErr.osError := rfl

/-- C9 (amended): inside `get_profile` only the user-name and
Linux-distribution lookups are failure-isolated (the call succeeds
whatever they do), while the host-name, FQDN, uname, filesystem-encoding
and working-directory lookups must succeed; with a clean keyword list and
those five lookups succeeding, `get_profile` returns a fully-populated
profile regardless of the two wrapped lookups failing. -/
theorem get_profile_core_ok (M : ModuleState) (c : CallState)
    (kwargs : List (String × Bool)) {hn hf fe cw : String}
    {un : String × String × String × String × String × String}
    (hk : (kwargs.filter (fun q => !(q.1 == "scrub"))).isEmpty = true)
    (h1 : c.hostname = Except.ok hn) (h2 : c.hostfqdn = Except.ok hf)
    (h3 : c.uname = Except.ok un) (h4 : c.fsEncoding = Except.ok fe)
    (h5 : c.cwd = Except.ok cw) :
    exOk (get_profile M c kwargs) = true := by
  unfold get_profile get_profile_body
  simp only [hk, if_true, h1, h2, h3, h4, h5]
  rfl

/-- C9 witness: a concrete call whose user-name and Linux-distribution
lookups raise still succeeds. -/
theorem get_profile_core_ok_witness : exOk (get_profile M0 cIso []) = true :=
  get_profile_core_ok M0 cIso [] rfl rfl rfl rfl rfl rfl

/-! ## Quoter style selection -/

/-- C10: an explicit empty-string style is treated like an absent style
(both falsy), the absent style selects the platform default (`cmd` on
`win32`, `sh` otherwise), and an explicit style raises `ValueError`
exactly when it is non-empty and neither `sh` nor `cmd`. -/
theorem escape_style_selection :
    ∀ (args : List (List Char)) (platform : String),
      _escape_shell_args args platform (some "") =
        _escape_shell_args args platform none ∧
      _escape_shell_args args platform none =
        Except.ok (if platform = "win32" then _args2cmd args else _args2sh args) ∧
      ∀ s : String,
        (_escape_shell_args args platform (some s) = Except.error PyErr.valueError ↔
          (s ≠ "" ∧ s ≠ "sh" ∧ s ≠ "cmd")) := by
  intro args platform
  refine ⟨rfl, ?_, ?_⟩
  · by_cases hw : platform = "win32" <;> simp [_escape_shell_args, hw]
  · intro s
    by_cases h0 : s = ""
    · subst h0
      by_cases hw : platform = "win32" <;> simp [_escape_shell_args, hw]
    · by_cases h1 : s = "sh"
      · subst h1
        simp [_escape_shell_args]
      · by_cases h2 : s = "cmd"
        · subst h2
          simp [_escape_shell_args]
        · simp [_escape_shell_args, h0, h1, h2]
